import Mathlib

/-!
Formal model of the NYC Yellow Taxi analysis scripts.

The development shallowly embeds the two scripts that the claims concern:

* compare_pandas_vs_spark.py — the benchmark that loads the taxi parquet
  file with pandas and with Spark, computes the mean fare amount grouped by
  pickup hour with each engine, writes one line chart per cell, and stops
  the Spark session at the end;
* prepare_data_for_grafana.py — the export script whose aggregate_data adds
  derived hour and date columns and whose load_to_postgres writes the
  aggregate tables to PostgreSQL with if_exists set to replace.

Machine floats are modelled by rational numbers, timestamps by minutes
since an epoch, and the file system and the random samplers by explicit
parameters, so every definition is executable.
-/

namespace NycTaxi

/-! ## Control-flow model of compare_pandas_vs_spark.main

The script main has no exception handler anywhere: every call either
completes or raises, and a raise propagates out of main and ends the
process.  We model main as the fixed sequence of primitive calls it makes,
run under an environment that says which calls raise.  The vocabulary of
operations also contains the per-run actions that the design documents
name (a cross-engine consistency check) so that their absence from the
script can be stated; main itself is translated only from the source. -/

/-- Primitive calls of the benchmark script, in the vocabulary of the
design: pandas load, pandas aggregation, pandas chart write, Spark session
open (getOrCreate inside load_data_spark), Spark read, Spark aggregation,
Spark chart write, Spark session stop, and a cross-engine consistency
check (named by the design; the script is checked against it). -/
inductive Op where
  | pdLoad
  | pdAgg
  | pdSink
  | spOpen
  | spLoad
  | spAgg
  | spSink
  | spStop
  | consistencyCheck
  deriving DecidableEq, Repr

/-- Calls of compare_pandas_vs_spark.main in program order: the small
pandas cell (load_data_pandas, then analyze_pandas, whose body aggregates
and then writes the chart), the small Spark cell (load_data_spark opens
the session and reads, analyze_spark aggregates and writes the chart),
the same two cells again for the full dataset, and finally spark.stop(). -/
def mainOps : List Op :=
  [Op.pdLoad, Op.pdAgg, Op.pdSink,
   Op.spOpen, Op.spLoad, Op.spAgg, Op.spSink,
   Op.pdLoad, Op.pdAgg, Op.pdSink,
   Op.spOpen, Op.spLoad, Op.spAgg, Op.spSink,
   Op.spStop]

/-- Execute a straight-line sequence of calls under a failure environment.
Returns the calls that were invoked and whether an exception escaped: a
failing call is invoked, raises, and since the script installs no handler,
nothing after it runs. -/
def runOps (failing : Op → Bool) : List Op → List Op × Bool
  | [] => ([], false)
  | op :: rest =>
    if failing op then ([op], true)
    else
      let res := runOps failing rest
      (op :: res.1, res.2)

/-- Run compare_pandas_vs_spark.main under a failure environment. -/
def runMain (failing : Op → Bool) : List Op × Bool :=
  runOps failing mainOps

/-- Environment where the Distributed engine is unavailable: every Spark
session open raises. -/
def failSparkOpen : Op → Bool := fun op => op == Op.spOpen

/-- Environment where the visualization sink raises on the pandas chart
write. -/
def failPdSink : Op → Bool := fun op => op == Op.pdSink

/-- The calls a run invokes are a sublist of the program-order call list:
no call runs twice and order is preserved. -/
theorem runOps_sublist (failing : Op → Bool) (l : List Op) :
    ((runOps failing l).1).Sublist l := by
  induction l with
  | nil => simp [runOps]
  | cons op rest ih =>
    by_cases h : failing op
    · simp [runOps, h]
    · simpa [runOps, h] using ih

/-- C1: the claim states that an adapter failure in one cell is recorded
and the matrix continues, so that with the Distributed engine failing at
open every Local cell still completes and the run does not abort.  The
script has no handler: with every Spark open raising, the exception
escapes main (the run aborts) and the pandas aggregation runs only once —
the full-dataset Local cell never executes. -/
theorem distributed_open_failure_aborts_local_cells :
    (runMain failSparkOpen).2 = true ∧
      (runMain failSparkOpen).1.count Op.pdAgg = 1 := by
  decide

/-- C1 (amended): any failing adapter call ends the run at that call.
Invoked calls always form a prefix-preserving sublist of the program
order, and when the Distributed engine fails at open, exactly the first
Local cell and the failing open were invoked, with the run aborted. -/
theorem adapter_failure_ends_run (failing : Op → Bool) :
    ((runMain failing).1).Sublist mainOps ∧
      runMain failSparkOpen
        = ([Op.pdLoad, Op.pdAgg, Op.pdSink, Op.spOpen], true) := by
  exact ⟨runOps_sublist failing mainOps, by decide⟩

/-- C2: the claim states that after the matrix the Orchestrator compares
the two engines on every fraction where both succeeded and reports
violations.  On a fully successful run — both engines succeed in every
cell — the script performs no consistency check at all. -/
theorem successful_run_makes_no_consistency_check :
    (runMain (fun _ => false)).2 = false ∧
      ((runMain (fun _ => false)).1.contains Op.consistencyCheck) = false := by
  decide

/-- C2 (amended): no run of the script ever performs a cross-engine
consistency check; each engine result is only rendered to its own chart,
so mismatches are never detected or reported. -/
theorem main_never_checks_consistency (failing : Op → Bool) :
    (runMain failing).1.count Op.consistencyCheck = 0 :=
  Nat.le_zero.mp
    (le_trans ((runOps_sublist failing mainOps).count_le Op.consistencyCheck)
      (by decide))

/-- C3: the claim states that the Spark session is closed exactly once on
every execution path, in a cleanup step that runs even when an earlier
cell failed.  When the Distributed engine fails at open, the run aborts
before spark.stop() is ever invoked: close runs zero times, not once. -/
theorem failing_run_never_closes_session :
    (runMain failSparkOpen).1.count Op.spStop = 0 ∧
      (runMain failSparkOpen).2 = true := by
  decide

/-- C3 (amended): the session close is never invoked more than once, and
it is invoked exactly once only on a run where no call fails; stop is the
last statement of main, not a guaranteed cleanup step, so a run with a
failing cell (for example a Distributed open failure) aborts with zero
close invocations. -/
theorem spark_stop_not_guaranteed (failing : Op → Bool) :
    (runMain failing).1.count Op.spStop ≤ 1 ∧
      (runMain (fun _ => false)).1.count Op.spStop = 1 ∧
      (runMain failSparkOpen).1.count Op.spStop = 0 := by
  refine ⟨?_, by decide, by decide⟩
  exact le_trans ((runOps_sublist failing mainOps).count_le Op.spStop) (by decide)

/-- C7: the claim states that a sink write failure is logged and the
remaining cells still execute.  The chart write happens inside
analyze_pandas with no handler: when it raises, the exception escapes and
the Spark cells never run. -/
theorem sink_failure_aborts_matrix :
    (runMain failPdSink).2 = true ∧
      ((runMain failPdSink).1.contains Op.spOpen) = false := by
  decide

/-- C7 (amended): a failing chart write ends the run at that write: under
a failing pandas sink, exactly the first Local cell is invoked and the
exception escapes main, so no later cell executes. -/
theorem sink_failure_ends_run :
    runMain failPdSink = ([Op.pdLoad, Op.pdAgg, Op.pdSink], true) := by
  decide

/-! ## Data model

A row of the taxi table.  The scripts read the parquet columns they use
(tpep_pickup_datetime, fare_amount, trip_distance, tip_amount,
total_amount); pandas may later add the derived hour and date columns, so
a row carries those as optional fields, absent in a freshly loaded table. -/

/-- One row of the taxi table.  The pickup timestamp is minutes since an
epoch; the money and distance columns are rationals; hour and date are the
derived columns the scripts may add, none before they are added. -/
structure Row where
  tpep_pickup_datetime : Nat
  fare_amount : ℚ
  trip_distance : ℚ
  tip_amount : ℚ
  total_amount : ℚ
  hour : Option Nat
  date : Option Nat
  deriving DecidableEq, Repr

/-- A table is the ordered list of its rows. -/
abbrev Table := List Row

/-- Hour component of a pickup timestamp, as computed by
pd.to_datetime(...).dt.hour and by the Spark hour function. -/
def pickupHour (ts : Nat) : Nat := ts / 60 % 24

/-- Date component (day index) of a pickup timestamp, as computed by
pd.to_datetime(...).dt.date. -/
def pickupDate (ts : Nat) : Nat := ts / 1440

/-! ## Dataset source: load_data_pandas and load_data_spark

Reading the parquet file can fail when the file is missing or unreadable;
randomized sampling is abstracted by an explicit sampler argument. -/

/-- Outcomes the file system can present to a read of the parquet path. -/
inductive FileContent where
  | missing
  | corrupt
  | readable (df : Table)

/-- Errors a parquet read raises (FileNotFoundError from a missing path,
a parse error from an unreadable file).  The scripts install no handler,
so these propagate to the caller. -/
inductive FileError where
  | fileNotFound
  | unreadable
  deriving DecidableEq, Repr

/-- pd.read_parquet and spark.read.parquet: raise on a missing or
unreadable file, return the table otherwise — a readable file with zero
rows yields the empty table. -/
def read_parquet (file : FileContent) : Except FileError Table :=
  match file with
  | FileContent.missing => Except.error FileError.fileNotFound
  | FileContent.corrupt => Except.error FileError.unreadable
  | FileContent.readable df => Except.ok df

/-- load_data_pandas: read the parquet file, then df.sample(frac) when a
sample fraction is given.  The randomness of df.sample is the sampler
argument. -/
def load_data_pandas (sampler : ℚ → Table → Table) (file : FileContent)
    (sample_fraction : Option ℚ) : Except FileError Table :=
  match read_parquet file with
  | Except.error e => Except.error e
  | Except.ok df =>
    match sample_fraction with
    | none => Except.ok df
    | some frac => Except.ok (sampler frac df)

/-- load_data_spark: open the session, read the parquet file, and sample
only when sample_ratio < 1.0; at ratio 1.0 the full table is returned and
the sampler is never consulted. -/
def load_data_spark (sampler : ℚ → Table → Table) (file : FileContent)
    (sample_ratio : ℚ) : Except FileError Table :=
  match read_parquet file with
  | Except.error e => Except.error e
  | Except.ok df =>
    Except.ok (if sample_ratio < 1 then sampler sample_ratio df else df)

/-- C4: the claim states that load raises on a missing, unreadable, or
zero-row file.  A readable file with zero rows is not an error in either
loader: both return the empty table. -/
theorem load_zero_rows_is_not_an_error :
    load_data_pandas (fun _ df => df) (FileContent.readable []) none
        = Except.ok [] ∧
      load_data_spark (fun _ df => df) (FileContent.readable []) 1
        = Except.ok [] := by
  constructor
  · rfl
  · simp [load_data_spark, read_parquet]

/-- C4 (amended): both loaders propagate an error exactly when the file is
missing or unreadable; a readable file is returned as is, so a zero-row
file yields an empty table rather than an error. -/
theorem load_error_conditions (sampler : ℚ → Table → Table) :
    load_data_pandas sampler FileContent.missing none
        = Except.error FileError.fileNotFound ∧
      load_data_pandas sampler FileContent.corrupt none
        = Except.error FileError.unreadable ∧
      (∀ df : Table,
        load_data_pandas sampler (FileContent.readable df) none = Except.ok df) ∧
      load_data_spark sampler FileContent.missing 1
        = Except.error FileError.fileNotFound ∧
      load_data_spark sampler FileContent.corrupt 1
        = Except.error FileError.unreadable ∧
      (∀ df : Table,
        load_data_spark sampler (FileContent.readable df) 1 = Except.ok df) := by
  refine ⟨rfl, rfl, fun df => rfl, rfl, rfl, fun df => ?_⟩
  simp [load_data_spark, read_parquet]

/-- C10: sampling in load_data_spark happens only below ratio 1.0.  At
ratio 1.0 the returned table is the full dataset, independent of the
sampler (no random selection is consulted), while any ratio below 1.0
routes the table through the sampler. -/
theorem spark_sampling_only_below_one (sampler altSampler : ℚ → Table → Table)
    (df : Table) :
    load_data_spark sampler (FileContent.readable df) 1 = Except.ok df ∧
      load_data_spark sampler (FileContent.readable df) 1
        = load_data_spark altSampler (FileContent.readable df) 1 ∧
      ∀ q : ℚ, q < 1 →
        load_data_spark sampler (FileContent.readable df) q
          = Except.ok (sampler q df) := by
  refine ⟨?_, ?_, fun q hq => ?_⟩
  · simp [load_data_spark, read_parquet]
  · simp [load_data_spark, read_parquet]
  · simp [load_data_spark, read_parquet, hq]

/-- C10 witness: with a sampler that drops every row, ratio one half
routes the single-row table through the sampler while ratio one returns
the full table untouched. -/
theorem spark_sampling_only_below_one_witness :
    load_data_spark (fun _ _ => [])
        (FileContent.readable [⟨90, 10, 2, 1, 13, none, none⟩]) (1 / 2)
        = Except.ok [] ∧
      load_data_spark (fun _ _ => [])
        (FileContent.readable [⟨90, 10, 2, 1, 13, none, none⟩]) 1
        = Except.ok [⟨90, 10, 2, 1, 13, none, none⟩] :=
  ⟨(spark_sampling_only_below_one (fun _ _ => []) (fun _ _ => [])
      [⟨90, 10, 2, 1, 13, none, none⟩]).2.2 (1 / 2) (by norm_num),
   (spark_sampling_only_below_one (fun _ _ => []) (fun _ _ => [])
      [⟨90, 10, 2, 1, 13, none, none⟩]).1⟩

/-! ## Aggregation recipe: analyze_pandas and analyze_spark

Both engines realize the same logical query: mean fare_amount grouped by
the hour component of tpep_pickup_datetime, ordered ascending by hour. -/

/-- The pandas statement df['hour'] = pd.to_datetime(...).dt.hour: assigns
the hour column of every row from its pickup timestamp, in place. -/
def addHourColumn (df : Table) : Table :=
  df.map fun r => { r with hour := some (pickupHour r.tpep_pickup_datetime) }

/-- Value of the hour column of a row (derived columns default to 0 when
never assigned; the scripts always assign before grouping). -/
def rowHour (r : Row) : Nat := r.hour.getD 0

/-- Group keys of df.groupby('hour'): every hour value present in the
column, once each, ascending — pandas groupby sorts its keys, and hour
values always lie in [0, 24). -/
def hourKeys (df : Table) : List Nat :=
  (List.range 24).filter fun h => df.any fun r => rowHour r == h

/-- The fare_amount values of the rows in the group of hour h. -/
def groupFares (df : Table) (h : Nat) : List ℚ :=
  (df.filter fun r => rowHour r == h).map Row.fare_amount

/-- Mean fare over the group of hour h, as .mean() computes it. -/
def groupMeanFare (df : Table) (h : Nat) : ℚ :=
  (groupFares df h).sum / ((groupFares df h).length : ℚ)

/-- df.groupby('hour')['fare_amount'].mean().reset_index(): one (hour,
mean fare) row per hour present, keys ascending. -/
def hourly_fares_pandas (df : Table) : List (Nat × ℚ) :=
  (hourKeys df).map fun h => (h, groupMeanFare df h)

/-- analyze_pandas: assigns the hour column to df in place, then computes
the hourly mean fares (chart writing lives in the run model).  Returns
the mutated table together with the aggregation result. -/
def analyze_pandas (df : Table) : Table × List (Nat × ℚ) :=
  (addHourColumn df, hourly_fares_pandas (addHourColumn df))

/-- df.withColumn('hour', hour('tpep_pickup_datetime')): same derivation;
Spark dataframes are immutable, so the input table is not modified. -/
def withColumnHour (df : Table) : Table :=
  df.map fun r => { r with hour := some (pickupHour r.tpep_pickup_datetime) }

/-- groupBy('hour').agg(avg('fare_amount')): one pair per distinct key of
the hour column, in first-occurrence order (Spark fixes no row order
before orderBy). -/
def sparkGroupByAvg (df : Table) : List (Nat × ℚ) :=
  ((df.map rowHour).dedup).map fun h => (h, groupMeanFare df h)

/-- orderBy('hour'): sort the aggregated rows by ascending hour key. -/
def orderByHour (l : List (Nat × ℚ)) : List (Nat × ℚ) :=
  List.insertionSort (fun p q => p.1 ≤ q.1) l

/-- analyze_spark aggregation pipeline: withColumn, groupBy with avg,
orderBy. -/
def hourly_fares_spark (df : Table) : List (Nat × ℚ) :=
  orderByHour (sparkGroupByAvg (withColumnHour df))

/-- Hour components of the pickup timestamps of a table, one per row. -/
def presentHours (df : Table) : List Nat :=
  df.map fun r => pickupHour r.tpep_pickup_datetime

/-- Arithmetic mean of fare_amount over the rows whose pickup hour is h,
stated directly from the timestamp column. -/
def meanFareAt (df : Table) (h : Nat) : ℚ :=
  ((df.filter fun r => pickupHour r.tpep_pickup_datetime == h).map
      Row.fare_amount).sum /
    (((df.filter fun r => pickupHour r.tpep_pickup_datetime == h).length : ℚ))

/-! Helper lemmas about the aggregation pipeline. -/

theorem pickupHour_lt (ts : Nat) : pickupHour ts < 24 :=
  Nat.mod_lt _ (by decide)

theorem rowHour_addHourColumn (df : Table) :
    (addHourColumn df).map rowHour = presentHours df := by
  induction df with
  | nil => rfl
  | cons r rest ih => simp [addHourColumn, rowHour, presentHours]

theorem mem_hourKeys_addHourColumn (df : Table) (h : Nat) :
    h ∈ hourKeys (addHourColumn df) ↔ h ∈ presentHours df := by
  simp only [hourKeys, addHourColumn, List.any_map, List.mem_filter,
    List.mem_range, List.any_eq_true, Function.comp_def, rowHour,
    Option.getD_some, beq_iff_eq, presentHours, List.mem_map]
  constructor
  · rintro ⟨-, r, hr, heq⟩
    exact ⟨r, hr, heq⟩
  · rintro ⟨r, hr, heq⟩
    exact ⟨heq ▸ pickupHour_lt _, r, hr, heq⟩

theorem keys_hourly_fares_pandas (df : Table) :
    (hourly_fares_pandas df).map Prod.fst = hourKeys df := by
  simp [hourly_fares_pandas, List.map_map, Function.comp_def]

theorem sorted_hourKeys (df : Table) : (hourKeys df).Sorted (· < ·) :=
  (List.pairwise_lt_range 24).sublist (List.filter_sublist _)

theorem groupFares_addHourColumn (df : Table) (h : Nat) :
    groupFares (addHourColumn df) h
      = (df.filter fun r => pickupHour r.tpep_pickup_datetime == h).map
          Row.fare_amount := by
  induction df with
  | nil => rfl
  | cons r rest ih =>
    by_cases hc : pickupHour r.tpep_pickup_datetime == h <;>
      simp_all [groupFares, addHourColumn, rowHour, List.filter_cons]

theorem groupMeanFare_addHourColumn (df : Table) (h : Nat) :
    groupMeanFare (addHourColumn df) h = meanFareAt df h := by
  simp [groupMeanFare, meanFareAt, groupFares_addHourColumn, List.length_map]

theorem withColumnHour_eq_addHourColumn (df : Table) :
    withColumnHour df = addHourColumn df := rfl

instance instIsTotalHourPair : IsTotal (Nat × ℚ) (fun p q => p.1 ≤ q.1) :=
  ⟨fun a b => Nat.le_total a.1 b.1⟩

instance instIsTransHourPair : IsTrans (Nat × ℚ) (fun p q => p.1 ≤ q.1) :=
  ⟨fun _ _ _ hab hbc => Nat.le_trans hab hbc⟩

theorem perm_hourly_fares_spark (df : Table) :
    (hourly_fares_spark df).Perm (sparkGroupByAvg (withColumnHour df)) :=
  List.perm_insertionSort _ _

theorem keys_sparkGroupByAvg (df : Table) :
    (sparkGroupByAvg df).map Prod.fst = (df.map rowHour).dedup := by
  simp [sparkGroupByAvg, List.map_map, Function.comp_def]

theorem mem_keys_hourly_fares_spark (df : Table) (h : Nat) :
    h ∈ (hourly_fares_spark df).map Prod.fst ↔ h ∈ presentHours df := by
  rw [((perm_hourly_fares_spark df).map Prod.fst).mem_iff,
    keys_sparkGroupByAvg, List.mem_dedup, withColumnHour_eq_addHourColumn,
    rowHour_addHourColumn]

theorem nodup_keys_hourly_fares_spark (df : Table) :
    ((hourly_fares_spark df).map Prod.fst).Nodup := by
  rw [((perm_hourly_fares_spark df).map Prod.fst).nodup_iff,
    keys_sparkGroupByAvg]
  exact List.nodup_dedup _

theorem sorted_keys_hourly_fares_spark (df : Table) :
    ((hourly_fares_spark df).map Prod.fst).Sorted (· < ·) := by
  refine List.Sorted.lt_of_le ?_ (nodup_keys_hourly_fares_spark df)
  have hs : (hourly_fares_spark df).Sorted (fun p q => p.1 ≤ q.1) :=
    List.sorted_insertionSort _ _
  exact (List.pairwise_map).mpr hs

theorem mean_hourly_fares_spark (df : Table) (p : Nat × ℚ)
    (hp : p ∈ hourly_fares_spark df) : p.2 = meanFareAt df p.1 := by
  have hp2 : p ∈ sparkGroupByAvg (withColumnHour df) :=
    (perm_hourly_fares_spark df).mem_iff.mp hp
  simp only [sparkGroupByAvg, List.mem_map] at hp2
  obtain ⟨h, -, rfl⟩ := hp2
  simpa using groupMeanFare_addHourColumn df h

/-- C5: in both engines the aggregation result pairs each hour present in
the table (exactly the distinct values of the hour component of the
pickup timestamps) with the arithmetic mean of fare_amount over the rows
of that hour; keys are strictly increasing, so the sequence is sorted
ascending with exactly one pair per present hour. -/
theorem aggregation_recipe_spec (df : Table) :
    (∀ h : Nat,
        h ∈ (analyze_pandas df).2.map Prod.fst ↔ h ∈ presentHours df) ∧
      ((analyze_pandas df).2.map Prod.fst).Sorted (· < ·) ∧
      (∀ p : Nat × ℚ, p ∈ (analyze_pandas df).2 → p.2 = meanFareAt df p.1) ∧
      (∀ h : Nat,
        h ∈ (hourly_fares_spark df).map Prod.fst ↔ h ∈ presentHours df) ∧
      ((hourly_fares_spark df).map Prod.fst).Sorted (· < ·) ∧
      (∀ p : Nat × ℚ, p ∈ hourly_fares_spark df → p.2 = meanFareAt df p.1) := by
  refine ⟨?_, ?_, ?_, mem_keys_hourly_fares_spark df,
    sorted_keys_hourly_fares_spark df, mean_hourly_fares_spark df⟩
  · intro h
    rw [show (analyze_pandas df).2 = hourly_fares_pandas (addHourColumn df) from rfl,
      keys_hourly_fares_pandas]
    exact mem_hourKeys_addHourColumn df h
  · rw [show (analyze_pandas df).2 = hourly_fares_pandas (addHourColumn df) from rfl,
      keys_hourly_fares_pandas]
    exact sorted_hourKeys _
  · intro p hp
    simp only [analyze_pandas, hourly_fares_pandas, List.mem_map] at hp
    obtain ⟨h, -, rfl⟩ := hp
    simpa using groupMeanFare_addHourColumn df h

/-- Concrete rows used by the witnesses: pickup hours 1, 1 and 2, with
fares 10, 20 and 7. -/
def rowA : Row := ⟨90, 10, 2, 1, 13, none, none⟩

def rowB : Row := ⟨95, 20, 3, 2, 24, none, none⟩

def rowC : Row := ⟨125, 7, 1, 0, 8, none, none⟩

def dfWitness : Table := [rowA, rowB, rowC]

/-- C5 witness: on the concrete three-row table, the pair of hour 1 in
the pandas result and the pair of hour 2 in the Spark result carry the
arithmetic means 15 and 7. -/
theorem aggregation_recipe_spec_witness :
    (15 : ℚ) = meanFareAt dfWitness 1 ∧ (7 : ℚ) = meanFareAt dfWitness 2 := by
  constructor
  · refine (aggregation_recipe_spec dfWitness).2.2.1 (1, 15) ?_
    have h1 : hourKeys (addHourColumn dfWitness) = [1, 2] := by decide
    have h2 : groupFares (addHourColumn dfWitness) 1 = [10, 20] := by decide
    norm_num [analyze_pandas, hourly_fares_pandas, h1, groupMeanFare, h2]
  · refine (aggregation_recipe_spec dfWitness).2.2.2.2.2 (2, 7) ?_
    refine (perm_hourly_fares_spark dfWitness).mem_iff.mpr ?_
    have h1 : ((withColumnHour dfWitness).map rowHour).dedup = [1, 2] := by decide
    have h2 : groupFares (withColumnHour dfWitness) 2 = [7] := by decide
    norm_num [sparkGroupByAvg, h1, groupMeanFare, h2]

/-- C6: the in-process aggregation path is deterministic and stable under
the one mutation analyze_pandas performs: running analyze_pandas again on
the table returned by a first run (the same table object, hour column now
assigned) yields the identical aggregation result. -/
theorem analyze_pandas_deterministic (df : Table) :
    (analyze_pandas (analyze_pandas df).1).2 = (analyze_pandas df).2 := by
  have hidem : addHourColumn (addHourColumn df) = addHourColumn df := by
    induction df with
    | nil => rfl
    | cons r rest ih => simp [addHourColumn]
  simp [analyze_pandas, hidem]

/-! ## prepare_data_for_grafana: aggregate_data and load_to_postgres -/

/-- The statement df['date'] = pd.to_datetime(...).dt.date: assigns the
date column of every row from its pickup timestamp, in place. -/
def addDateColumn (df : Table) : Table :=
  df.map fun r => { r with date := some (pickupDate r.tpep_pickup_datetime) }

/-- Value of the date column of a row. -/
def rowDate (r : Row) : Nat := r.date.getD 0

/-- One aggregated output row of aggregate_data: the group key and the
columns produced by the .agg dictionary (means of trip_distance,
fare_amount, tip_amount, total_amount and the row count). -/
structure StatRow where
  key : Nat
  avg_distance : ℚ
  avg_fare : ℚ
  avg_tip : ℚ
  avg_total : ℚ
  trip_count : Nat
  deriving DecidableEq, Repr

/-- Aggregated rows of df.groupby(keyOf).agg({...}).reset_index(), one
per group key in the given key order. -/
def statsFor (df : Table) (keyOf : Row → Nat) (keys : List Nat) : List StatRow :=
  keys.map fun k =>
    let grp := df.filter fun r => keyOf r == k
    { key := k
      avg_distance := (grp.map Row.trip_distance).sum / (grp.length : ℚ)
      avg_fare := (grp.map Row.fare_amount).sum / (grp.length : ℚ)
      avg_tip := (grp.map Row.tip_amount).sum / (grp.length : ℚ)
      avg_total := (grp.map Row.total_amount).sum / (grp.length : ℚ)
      trip_count := grp.length }

/-- Group keys of df.groupby('date'): the distinct dates present,
ascending (pandas groupby sorts its keys). -/
def dateKeys (df : Table) : List Nat :=
  List.insertionSort (fun a b => a ≤ b) ((df.map rowDate).dedup)

/-- aggregate_data: assigns the hour column, computes the hourly stats,
then assigns the date column and computes the daily stats.  The input
dataframe is mutated in place, so the function returns the mutated table
together with the two stat tables. -/
def aggregate_data (df : Table) : Table × List StatRow × List StatRow :=
  let df1 := addHourColumn df
  let hourly_stats := statsFor df1 rowHour (hourKeys df1)
  let df2 := addDateColumn df1
  (df2, hourly_stats, statsFor df2 rowDate (dateKeys df2))

/-- The source-file columns of a row, without the derived hour and date
columns: the projection used to state frame conditions. -/
structure BaseRow where
  tpep_pickup_datetime : Nat
  fare_amount : ℚ
  trip_distance : ℚ
  tip_amount : ℚ
  total_amount : ℚ
  deriving DecidableEq, Repr

/-- Projection of a row to its source-file columns. -/
def Row.base (r : Row) : BaseRow :=
  { tpep_pickup_datetime := r.tpep_pickup_datetime
    fare_amount := r.fare_amount
    trip_distance := r.trip_distance
    tip_amount := r.tip_amount
    total_amount := r.total_amount }

/-- Concrete single-row table with neither derived column assigned. -/
def dfFresh : Table := [rowA]

/-- C8: the claim states that the only mutation the core performs on a
table is adding the derived hour column.  On a concrete fresh row,
aggregate_data also assigns the date column: the date column of the
result differs from the date column of the input. -/
theorem aggregate_data_also_adds_date :
    (aggregate_data dfFresh).1.map Row.date = [some 0] ∧
      dfFresh.map Row.date = [none] ∧
      (((aggregate_data dfFresh).1.map Row.date == dfFresh.map Row.date)
        = false) := by
  decide

/-- C8 (amended): the core operations keep every row and every
source-file column unchanged; the mutations are limited to the derived
columns — analyze_pandas assigns only hour (date untouched), and
aggregate_data assigns hour and date. -/
theorem core_ops_frame_condition (df : Table) :
    (analyze_pandas df).1.map Row.base = df.map Row.base ∧
      (analyze_pandas df).1.map Row.date = df.map Row.date ∧
      (analyze_pandas df).1.length = df.length ∧
      (aggregate_data df).1.map Row.base = df.map Row.base ∧
      (aggregate_data df).1.length = df.length := by
  refine ⟨?_, ?_, ?_, ?_, ?_⟩ <;>
    · induction df with
      | nil => rfl
      | cons r rest ih =>
        simp_all [analyze_pandas, aggregate_data, addHourColumn, addDateColumn,
          Row.base]

/-! ## Relational export: load_to_postgres

The database is modelled as an association list from table names to lists
of stat rows; pandas to_sql with if_exists set to replace drops whatever
the named table held and writes the new rows. -/

/-- State of the PostgreSQL database: named tables of stat rows. -/
abbrev Database := List (String × List StatRow)

/-- Contents of a named table, none when the table does not exist. -/
def getTable (db : Database) (name : String) : Option (List StatRow) :=
  match db with
  | [] => none
  | (n, rows) :: rest => if n == name then some rows else getTable rest name

/-- Create or overwrite a named table with the given rows, leaving every
other table unchanged. -/
def setTable (db : Database) (name : String) (rows : List StatRow) : Database :=
  match db with
  | [] => [(name, rows)]
  | (n, old) :: rest =>
    if n == name then (n, rows) :: rest else (n, old) :: setTable rest name rows

/-- data.to_sql(table_name, engine, if_exists='replace', index=False):
the named table is dropped and recreated holding exactly data. -/
def to_sql_replace (data : List StatRow) (table_name : String)
    (db : Database) : Database :=
  setTable db table_name data

/-- load_to_postgres: forwards to to_sql with if_exists set to replace. -/
def load_to_postgres (data : List StatRow) (table_name : String)
    (db : Database) : Database :=
  to_sql_replace data table_name db

/-- Stat row with the given key and zeroed aggregate columns, for the
concrete database scenarios. -/
def statK (k : Nat) : StatRow := ⟨k, 0, 0, 0, 0, 0⟩

/-- A database that already holds an hourly row for key 5 and a daily
table. -/
def dbPrior : Database :=
  [("hourly_stats", [statK 5]), ("daily_stats", [statK 9])]

/-- C9: the claim states that the export upserts: rows for other keys
already in the target table are preserved.  Loading a table that only
holds key 3 into a target that held key 5 leaves the target with exactly
the key-3 row — the pre-existing key-5 row is discarded. -/
theorem load_to_postgres_discards_prior_rows :
    getTable (load_to_postgres [statK 3] "hourly_stats" dbPrior) "hourly_stats"
        = some [statK 3] ∧
      ((getTable (load_to_postgres [statK 3] "hourly_stats" dbPrior)
            "hourly_stats").getD []).contains (statK 5) = false ∧
      ((getTable dbPrior "hourly_stats").getD []).contains (statK 5) = true := by
  decide

/-- C9 (amended): load_to_postgres replaces the named table wholesale:
afterwards the table holds exactly the new rows, while every other table
of the database is untouched. -/
theorem load_to_postgres_replaces_table (data : List StatRow)
    (table_name : String) (db : Database) :
    getTable (load_to_postgres data table_name db) table_name = some data ∧
      ∀ other : String, other ≠ table_name →
        getTable (load_to_postgres data table_name db) other
          = getTable db other := by
  constructor
  · induction db with
    | nil => simp [load_to_postgres, to_sql_replace, setTable, getTable]
    | cons entry rest ih =>
      obtain ⟨n, old⟩ := entry
      by_cases h : n = table_name <;>
        simp_all [load_to_postgres, to_sql_replace, setTable, getTable]
  · intro other hne
    have hne2 : table_name ≠ other := fun h => hne h.symm
    induction db with
    | nil => simp [load_to_postgres, to_sql_replace, setTable, getTable, hne2]
    | cons entry rest ih =>
      obtain ⟨n, old⟩ := entry
      by_cases h : n = table_name <;>
        simp_all [load_to_postgres, to_sql_replace, setTable, getTable]

/-- C9 amended witness: in the concrete scenario the hourly table ends up
holding exactly the loaded row and the daily table is untouched. -/
theorem load_to_postgres_replaces_table_witness :
    getTable (load_to_postgres [statK 3] "hourly_stats" dbPrior) "hourly_stats"
        = some [statK 3] ∧
      getTable (load_to_postgres [statK 3] "hourly_stats" dbPrior) "daily_stats"
        = getTable dbPrior "daily_stats" :=
  ⟨(load_to_postgres_replaces_table [statK 3] "hourly_stats" dbPrior).1,
   (load_to_postgres_replaces_table [statK 3] "hourly_stats" dbPrior).2
     "daily_stats" (by decide)⟩

end NycTaxi
